import Mathlib

/-!
Shallow embedding of the asynchronous task-queue pipeline of the
`otel_python` application (files `app/domain.py`, `app/services.py`,
`app/worker.py`, `app/main.py`) together with proofs of the stated
specification properties.

Modelling conventions:
* Python strings are `List Char`; `str.upper` is modelled as a `Char.toUpper`
  map (the ASCII fragment actually exercised by the code), `str.strip()` as
  trimming the default whitespace characters.
* The Redis hash `results` is an association list; `hset` prepends a binding
  and `hget` returns the most recent one, which models field overwrite.
* The queue carries structured messages (`json.loads` after `json.dumps` is
  the identity on the well-formed messages the producer pushes); the
  dead-letter list stores the serialized text verbatim, as the code does,
  via an explicit `dumps` encoder.
* A Python exception raised during a task transformation is modelled by an
  explicit `fault : Option (List Char)` argument carrying the exception
  message; `none` is normal execution.
* Wall-clock effects (`asyncio.sleep`, span/telemetry calls, logging) have
  no observable effect on the queue/result state and are not modelled.
-/

namespace App

/-- Characters removed by Python's default `str.strip()` on the ASCII range:
space, tab, newline, carriage return, vertical tab, form feed. -/
def isPySpace (c : Char) : Bool :=
  c == ' ' || c == '\t' || c == '\n' || c == '\r' || c == Char.ofNat 11 || c == Char.ofNat 12

/-- Python `s.strip()`: drop leading and trailing whitespace. -/
def strip (s : List Char) : List Char :=
  ((s.dropWhile isPySpace).reverse.dropWhile isPySpace).reverse

/-- Python `s.startswith(pre)`. -/
def startswith (pre s : List Char) : Bool :=
  s.take pre.length == pre

/-- Python `needle in hay` (substring test). -/
def hasSub (needle : List Char) : List Char → Bool
  | [] => needle.isEmpty
  | c :: rest => startswith needle (c :: rest) || hasSub needle rest

/-- `domain.py` `TaskType`: the closed enumeration of known task kinds. -/
inductive TaskType
  | reverse
  | uppercase
  | slow
deriving DecidableEq, Repr

/-- The `.value` of each enum member, as in `domain.py`. -/
def TaskType.value : TaskType → List Char
  | .reverse => "reverse".toList
  | .uppercase => "uppercase".toList
  | .slow => "slow".toList

/-- The `TaskType(raw)` enum constructor of `services.py` line 89: returns the
member whose value matches, and models the `ValueError` Python raises for an
unknown value by `none`. -/
def TaskType.ofValue (s : List Char) : Option TaskType :=
  if s = "reverse".toList then some .reverse
  else if s = "uppercase".toList then some .uppercase
  else if s = "slow".toList then some .slow
  else none

/-- `domain.py` `TaskRequest`. -/
structure TaskRequest where
  task_type : TaskType
  payload : List Char
deriving DecidableEq, Repr

/-- `TaskRequest.validate` (`domain.py` lines 24-29): raises
`ValueError("Payload cannot be empty")` when the stripped payload is falsy and
`ValueError("Payload too large")` when the payload exceeds 10000 characters. -/
def TaskRequest.validate (r : TaskRequest) : Except (List Char) Unit :=
  if (strip r.payload).isEmpty then Except.error "Payload cannot be empty".toList
  else if r.payload.length > 10000 then Except.error "Payload too large".toList
  else Except.ok ()

/-- `domain.py` `Task`. -/
structure Task where
  id : List Char
  task_type : TaskType
  payload : List Char
deriving DecidableEq, Repr

/-- `Task.create` (`domain.py` lines 39-47). The `uuid.uuid4()` call is
modelled by the explicit `fresh` argument supplying the generated id. -/
def Task.create (fresh : List Char) (request : TaskRequest) : Except (List Char) Task :=
  match request.validate with
  | Except.error e => Except.error e
  | Except.ok _ =>
      Except.ok { id := fresh, task_type := request.task_type, payload := request.payload }

/-- The queue wire format `{"id", "kind", "data"}` as a structured message. -/
structure Job where
  id : List Char
  kind : List Char
  data : List Char
deriving DecidableEq, Repr

/-- `Task.to_queue_message` (`domain.py` lines 49-55). -/
def Task.to_queue_message (t : Task) : Job :=
  { id := t.id, kind := t.task_type.value, data := t.payload }

/-- `domain.py` `reverse_text`: Python `text[::-1]`. -/
def reverse_text (text : List Char) : List Char := text.reverse

/-- `domain.py` `uppercase_text`: Python `text.upper()` on the ASCII fragment. -/
def uppercase_text (text : List Char) : List Char := text.map Char.toUpper

/-- `domain.py` `slow_process_text`: Python `f"processed:{text}"`. -/
def slow_process_text (text : List Char) : List Char := "processed:".toList ++ text

/-- `TaskProcessor.process_task` (`domain.py` lines 86-95). -/
def TaskProcessor.process_task (task : Task) : List Char :=
  match task.task_type with
  | .reverse => reverse_text task.payload
  | .uppercase => uppercase_text task.payload
  | .slow => slow_process_text task.payload

/-- `domain.py` `TaskResult`. -/
structure TaskResult where
  task_id : List Char
  status : List Char
  result : Option (List Char)
  error : Option (List Char)
deriving DecidableEq, Repr

/-- The Redis hash `results` as an association list, newest binding first. -/
abbrev Store := List (List Char × List Char)

/-- Redis `HSET`: overwrite the field, modelled by prepending (lookup returns
the most recent binding). -/
def hset (st : Store) (k v : List Char) : Store := (k, v) :: st

/-- Redis `HGET`. -/
def hget (st : Store) (k : List Char) : Option (List Char) := st.lookup k

/-- JSON string escaping as done by `json.dumps` on the quote and backslash
characters (control characters do not occur in the modelled inputs). -/
def jsonEscape (s : List Char) : List Char :=
  s.flatMap fun c => if c == '"' || c == '\\' then ['\\', c] else [c]

/-- `json.dumps(job)` for a queue message dict with keys id, kind, data, with
the default separators of `json.dumps`. -/
def dumps (job : Job) : List Char :=
  "\x7b\"id\": \"".toList ++ jsonEscape job.id ++ "\", \"kind\": \"".toList
    ++ jsonEscape job.kind ++ "\", \"data\": \"".toList ++ jsonEscape job.data
    ++ "\"\x7d".toList

/-- Is the kind one of the three branches of `worker.py` `handle`'s
if/elif chain? -/
def knownKind (k : List Char) : Bool :=
  k == "reverse".toList || k == "uppercase".toList || k == "slow".toList

/-- The transformation computed inline by `worker.py` `handle` lines 107-117
for a known kind: `data[::-1]`, `data.upper()`, `f"processed:{data}"`. -/
def transform (k data : List Char) : List Char :=
  if k == "reverse".toList then data.reverse
  else if k == "uppercase".toList then data.map Char.toUpper
  else "processed:".toList ++ data

/-- How a call of `worker.py` `handle` returns. -/
inductive HandleOut
  | completed
  | deadLettered
  | raised (msg : List Char)
deriving DecidableEq, Repr

/-- The shared store state touched by `worker.py` `handle`: the
`dead_letter` Redis list and the `results` Redis hash. -/
structure WStore where
  dead_letter : List (List Char)
  results : Store
deriving DecidableEq, Repr

/-- `worker.py` `handle` (lines 79-174), restricted to its queue/store
effects. For a known kind: on normal execution (`fault = none`) the computed
transformation is written to `results` under the job id; a transformation
exception (`fault = some m`) is caught by the `except` clause, which writes
`"error: " ++ m` to `results` and then re-raises. For an unknown kind the
serialized job is appended to the dead-letter list and the string
`"dead_letter"` is written to `results`; no transformation runs. -/
def handle (fault : Option (List Char)) (job : Job) (s : WStore) : HandleOut × WStore :=
  if knownKind job.kind then
    match fault with
    | some m =>
        (HandleOut.raised m,
          { s with results := hset s.results job.id ("error: ".toList ++ m) })
    | none =>
        (HandleOut.completed,
          { s with results := hset s.results job.id (transform job.kind job.data) })
  else
    (HandleOut.deadLettered,
      { dead_letter := s.dead_letter ++ [dumps job],
        results := hset s.results job.id "dead_letter".toList })

/-- The whole shared state seen by the producer and the worker loop. -/
structure SysState where
  queue : List Job
  dead_letter : List (List Char)
  results : Store
  processed : Nat
deriving DecidableEq, Repr

/-- One pass of the `while` body of `worker.py` `worker_loop` (lines
192-241). An empty queue is the `blpop` timeout branch (heartbeat only, no
state change). Otherwise the head message is popped and given to `handle`;
`processed += 1` (line 233) runs only when `handle` returns normally - when
`handle` re-raises, control jumps to the `except` clause at line 235, which
logs, sleeps and continues, skipping the increment. -/
def worker_iter (fault : Option (List Char)) (s : SysState) : SysState :=
  match s.queue with
  | [] => s
  | job :: rest =>
      let r := handle fault job { dead_letter := s.dead_letter, results := s.results }
      { queue := rest
        dead_letter := r.2.dead_letter
        results := r.2.results
        processed :=
          match r.1 with
          | HandleOut.raised _ => s.processed
          | _ => s.processed + 1 }

/-- The `worker_loop` `while not shutdown_flag["stop"]` loop, run for at most
`fuel` iterations starting at iteration index `k`. `stops k` is the value of
the shutdown flag observed at the top of iteration `k`; the flag is consulted
only there, never inside `worker_iter`, exactly as `shutdown_flag["stop"]` is
read only in the `while` condition of the source. `fault k` injects a
transformation exception into iteration `k`. -/
def worker_run (fault : Nat → Option (List Char)) (stops : Nat → Bool) :
    Nat → Nat → SysState → SysState
  | _, 0, s => s
  | k, fuel + 1, s =>
      if stops k then s
      else worker_run fault stops (k + 1) fuel (worker_iter (fault k) s)

/-- `TaskService.submit_task` (`services.py` lines 22-44): validate and build
the `Task` (propagating the `ValueError` of `validate`, in which case nothing
is pushed), then `rpush` the serialized queue message. `fresh` supplies the
`uuid.uuid4()` id. -/
def submit_task (fresh : List Char) (task_type : TaskType) (payload : List Char)
    (s : SysState) : Except (List Char) (List Char) × SysState :=
  match Task.create fresh { task_type := task_type, payload := payload } with
  | Except.error e => (Except.error e, s)
  | Except.ok task =>
      (Except.ok task.id, { s with queue := s.queue ++ [task.to_queue_message] })

/-- `TaskService.get_task_result` (`services.py` lines 46-59): absence means
pending; a stored value starting with `"error:"` is an error whose message is
the value with its first six characters removed (`result[6:]`); anything else
is done. -/
def get_task_result (storage : Store) (task_id : List Char) : TaskResult :=
  match hget storage task_id with
  | none => { task_id := task_id, status := "pending".toList, result := none, error := none }
  | some result =>
      if startswith "error:".toList result then
        { task_id := task_id, status := "error".toList, result := none,
          error := some (result.drop 6) }
      else
        { task_id := task_id, status := "done".toList, result := some result, error := none }

/-- `main.py` `get_result` (lines 266-308), reduced to its response body:
absence gives status `"pending"`, any stored value gives status `"done"`
carrying the raw stored string. -/
def get_result (storage : Store) (task_id : List Char) : List Char × Option (List Char) :=
  match hget storage task_id with
  | none => ("pending".toList, none)
  | some result => ("done".toList, some result)

/-- How a call of `WorkerService.process_next_task` returns. -/
inductive PNTOutcome
  | returnedFalse
  | returnedTrue
  | raisedValueError (kind : List Char)
deriving DecidableEq, Repr

/-- `WorkerService.process_next_task` (`services.py` lines 73-120). The
`blpop` timeout returns `False`. Otherwise the message is popped and
`TaskType(task_data["kind"])` runs before the `try` block: an unknown kind
raises `ValueError` there, leaving the stores untouched (the message is
already off the queue). For a known kind the transformation result - or, on a
transformation exception, `"error: " ++ msg` - is written to `results` and
`True` is returned. `WorkerService` never writes a dead-letter entry, so the
dead-letter list is threaded through unchanged. -/
def process_next_task (fault : Option (List Char)) (queue : List Job)
    (results : Store) (dead_letter : List (List Char)) :
    PNTOutcome × List Job × Store × List (List Char) :=
  match queue with
  | [] => (PNTOutcome.returnedFalse, [], results, dead_letter)
  | job :: rest =>
      match TaskType.ofValue job.kind with
      | none => (PNTOutcome.raisedValueError job.kind, rest, results, dead_letter)
      | some tt =>
          match fault with
          | some m =>
              (PNTOutcome.returnedTrue, rest,
                hset results job.id ("error: ".toList ++ m), dead_letter)
          | none =>
              (PNTOutcome.returnedTrue, rest,
                hset results job.id
                  (TaskProcessor.process_task { id := job.id, task_type := tt, payload := job.data }),
                dead_letter)

/-- The wait computed by `worker.py` `ensure_redis` line 183 after the failed
attempt numbered `attempt`: `min(0.5 * attempt, 5)`. -/
def backoff (attempt : Nat) : ℚ := min ((attempt : ℚ) / 2) 5

/-- The observable trace of one `ensure_redis` call: how many probes were
made, the waits slept after failed probes in order, and whether the call
returned normally (`ok = true`) or raised `RuntimeError` (`ok = false`). -/
structure RetryTrace where
  probes : Nat
  waits : List ℚ
  ok : Bool
deriving DecidableEq, Repr

/-- The `for attempt in range(1, max_attempts + 1)` loop of `ensure_redis`
(`worker.py` lines 176-186), with `attempt` the next attempt number and the
second argument the remaining number of attempts. `probe n` is the outcome of
the `await r.ping()` on attempt `n`. -/
def ensure_redis_go (probe : Nat → Bool) : Nat → Nat → RetryTrace
  | _, 0 => { probes := 0, waits := [], ok := false }
  | attempt, rem + 1 =>
      if probe attempt then { probes := 1, waits := [], ok := true }
      else
        let t := ensure_redis_go probe (attempt + 1) rem
        { probes := t.probes + 1, waits := backoff attempt :: t.waits, ok := t.ok }

/-- `worker.py` `ensure_redis`: attempts are numbered from 1. -/
def ensure_redis (probe : Nat → Bool) (max_attempts : Nat) : RetryTrace :=
  ensure_redis_go probe 1 max_attempts

/-! Helper lemmas about the store and the worker loop. -/

theorem hget_hset_self (st : Store) (k v : List Char) : hget (hset st k v) k = some v := by
  simp [hget, hset, List.lookup]

theorem hget_hset_isSome (st : Store) (k k' v : List Char)
    (h : (hget st k').isSome = true) : (hget (hset st k v) k').isSome = true := by
  by_cases hk : k' = k
  · subst hk; rw [hget_hset_self]; rfl
  · have hb : (k' == k) = false := beq_eq_false_iff_ne.mpr hk
    show (List.lookup k' ((k, v) :: st)).isSome = true
    simp only [List.lookup]
    rw [hb]
    exact h

theorem handle_records (fault : Option (List Char)) (job : Job) (s : WStore) :
    (hget (handle fault job s).2.results job.id).isSome = true := by
  unfold handle
  by_cases hk : knownKind job.kind <;> cases fault <;> simp [hk, hget_hset_self]

theorem handle_preserves (fault : Option (List Char)) (job : Job) (s : WStore)
    (key : List Char) (h : (hget s.results key).isSome = true) :
    (hget (handle fault job s).2.results key).isSome = true := by
  unfold handle
  by_cases hk : knownKind job.kind <;> cases fault <;>
    simpa [hk] using hget_hset_isSome _ _ _ _ h

theorem worker_iter_preserves (fault : Option (List Char)) (s : SysState)
    (key : List Char) (h : (hget s.results key).isSome = true) :
    (hget (worker_iter fault s).results key).isSome = true := by
  rcases s with ⟨q, dl, res, p⟩
  cases q with
  | nil => simpa [worker_iter] using h
  | cons job rest =>
      simpa [worker_iter] using
        handle_preserves fault job { dead_letter := dl, results := res } key h

theorem worker_run_preserves (fault : Nat → Option (List Char)) (stops : Nat → Bool) :
    ∀ (fuel k : Nat) (s : SysState) (key : List Char),
      (hget s.results key).isSome = true →
      (hget (worker_run fault stops k fuel s).results key).isSome = true := by
  intro fuel
  induction fuel with
  | zero => intro k s key h; simpa [worker_run] using h
  | succ n ih =>
      intro k s key h
      unfold worker_run
      by_cases hs : stops k
      · simpa [hs] using h
      · simpa [hs] using ih (k + 1) (worker_iter (fault k) s) key
          (worker_iter_preserves (fault k) s key h)

theorem get_task_result_none (store : Store) (id : List Char)
    (h : hget store id = none) :
    get_task_result store id =
      { task_id := id, status := "pending".toList, result := none, error := none } := by
  unfold get_task_result
  rw [h]

theorem get_task_result_some (store : Store) (id r : List Char)
    (h : hget store id = some r) :
    get_task_result store id =
      if startswith "error:".toList r = true then
        { task_id := id, status := "error".toList, result := none, error := some (r.drop 6) }
      else
        { task_id := id, status := "done".toList, result := some r, error := none } := by
  unfold get_task_result
  rw [h]

/-! The claims. -/

/-- Claim C1: for every payload, processing a task of a known kind yields
exactly the documented transformation - reverse yields the reversed character
sequence, uppercase the uppercase mapping, slow the string "processed:"
followed by the payload - both in the worker's `handle` and in the domain
`TaskProcessor.process_task`; and submitting (reverse,"hello"),
(uppercase,"hello"), (slow,"hello") through the pipeline yields Done "olleh",
Done "HELLO", Done "processed:hello" respectively. -/
theorem C1_known_kind_processing :
    (∀ (id data : List Char) (s : WStore),
        handle none { id := id, kind := "reverse".toList, data := data } s =
          (HandleOut.completed, { s with results := hset s.results id data.reverse })
      ∧ handle none { id := id, kind := "uppercase".toList, data := data } s =
          (HandleOut.completed, { s with results := hset s.results id (data.map Char.toUpper) })
      ∧ handle none { id := id, kind := "slow".toList, data := data } s =
          (HandleOut.completed,
            { s with results := hset s.results id ("processed:".toList ++ data) }))
  ∧ (∀ (id payload : List Char),
        TaskProcessor.process_task { id := id, task_type := TaskType.reverse, payload := payload } =
          payload.reverse
      ∧ TaskProcessor.process_task { id := id, task_type := TaskType.uppercase, payload := payload } =
          payload.map Char.toUpper
      ∧ TaskProcessor.process_task { id := id, task_type := TaskType.slow, payload := payload } =
          "processed:".toList ++ payload)
  ∧ ((submit_task "t1".toList TaskType.reverse "hello".toList ⟨[], [], [], 0⟩).1 =
        Except.ok "t1".toList
      ∧ get_task_result
          (worker_iter none
            (submit_task "t1".toList TaskType.reverse "hello".toList ⟨[], [], [], 0⟩).2).results
          "t1".toList =
        { task_id := "t1".toList, status := "done".toList,
          result := some "olleh".toList, error := none })
  ∧ (get_task_result
        (worker_iter none
          (submit_task "t1".toList TaskType.uppercase "hello".toList ⟨[], [], [], 0⟩).2).results
        "t1".toList =
      { task_id := "t1".toList, status := "done".toList,
        result := some "HELLO".toList, error := none })
  ∧ (get_task_result
        (worker_iter none
          (submit_task "t1".toList TaskType.slow "hello".toList ⟨[], [], [], 0⟩).2).results
        "t1".toList =
      { task_id := "t1".toList, status := "done".toList,
        result := some "processed:hello".toList, error := none }) := by
  refine ⟨fun id data s => ⟨rfl, rfl, rfl⟩, fun id payload => ⟨rfl, rfl, rfl⟩,
    ⟨rfl, rfl⟩, rfl, rfl⟩

/-- Claim C3: `submit_task` rejects if and only if the payload strips to
empty or exceeds 10000 characters (exactly 10000 characters is accepted,
being outside the rejection condition), and on rejection the whole shared
state - queue, dead-letter list and result store - is returned unchanged. -/
theorem C3_submit_validation (fresh payload : List Char) (tt : TaskType) (s : SysState) :
    ((∃ e, (submit_task fresh tt payload s).1 = Except.error e) ↔
        ((strip payload).isEmpty = true ∨ 10000 < payload.length))
  ∧ (∀ e, (submit_task fresh tt payload s).1 = Except.error e →
      (submit_task fresh tt payload s).2 = s) := by
  unfold submit_task Task.create TaskRequest.validate
  by_cases h1 : (strip payload).isEmpty
  · simp [h1]
  · by_cases h2 : payload.length > 10000
    · simp [h1, h2]
    · simp [h1, h2]

/-- Witness for C3: the whitespace-only payload "  " is rejected and leaves
the state unchanged. -/
theorem C3_submit_validation_witness :
    (∃ e, (submit_task "t1".toList TaskType.reverse "  ".toList ⟨[], [], [], 0⟩).1 =
      Except.error e)
  ∧ (submit_task "t1".toList TaskType.reverse "  ".toList ⟨[], [], [], 0⟩).2 =
      (⟨[], [], [], 0⟩ : SysState) :=
  ⟨(C3_submit_validation "t1".toList "  ".toList TaskType.reverse ⟨[], [], [], 0⟩).1.mpr
      (Or.inl (by decide)),
    (C3_submit_validation "t1".toList "  ".toList TaskType.reverse ⟨[], [], [], 0⟩).2
      "Payload cannot be empty".toList rfl⟩

/-- Counterexample for C2: dead-lettering the unknown-kind job (id "t1",
kind "frobnicate", data "x") appends exactly one entry, and that entry is the
serialized job alone - it does not contain the claimed reason text
"unknown kind" anywhere. -/
theorem C2_counterexample_no_reason_in_entry :
    ((handle none { id := "t1".toList, kind := "frobnicate".toList, data := "x".toList }
        { dead_letter := [], results := [] }).2.dead_letter =
      [dumps { id := "t1".toList, kind := "frobnicate".toList, data := "x".toList }])
  ∧ hasSub "unknown kind".toList
      (dumps { id := "t1".toList, kind := "frobnicate".toList, data := "x".toList }) = false :=
  ⟨rfl, rfl⟩

/-- Claim C2 amended: for every dequeued job whose kind is not in the known
set, the worker appends exactly one new entry to the dead-letter list, and
that entry is the original serialized Task verbatim with no reason text
attached (the reason `unknown_job_kind: <value>` goes only to the log and the
trace span); it records the marker string "dead_letter" as the result for the
task id; and it never invokes the transformation (the outcome is
dead-lettered and independent of any injected transformation fault). -/
theorem C2_dead_letter_amended (fault : Option (List Char)) (job : Job) (s : WStore)
    (h : knownKind job.kind = false) :
    handle fault job s =
      (HandleOut.deadLettered,
        { dead_letter := s.dead_letter ++ [dumps job],
          results := hset s.results job.id "dead_letter".toList }) := by
  simp [handle, h]

/-- Witness for C2's amended claim at the unknown kind "mystery". -/
theorem C2_dead_letter_amended_witness :
    handle none { id := "t2".toList, kind := "mystery".toList, data := "y".toList }
        { dead_letter := [], results := [] } =
      (HandleOut.deadLettered,
        { dead_letter :=
            [dumps { id := "t2".toList, kind := "mystery".toList, data := "y".toList }],
          results := hset [] "t2".toList "dead_letter".toList }) :=
  C2_dead_letter_amended none
    { id := "t2".toList, kind := "mystery".toList, data := "y".toList }
    { dead_letter := [], results := [] } rfl

/-- Counterexample for C4: for the message "boom" raised while processing the
reverse job "t1", the worker stores "error: boom" (a space after the colon),
and `get_task_result` strips only the six characters "error:", so the error
field it returns is " boom", which differs from the original message "boom":
the write-then-read cycle does not recover the message exactly. -/
theorem C4_counterexample_error_roundtrip :
    (hget (handle (some "boom".toList)
        { id := "t1".toList, kind := "reverse".toList, data := "x".toList }
        { dead_letter := [], results := [] }).2.results "t1".toList =
      some "error: boom".toList)
  ∧ (get_task_result (handle (some "boom".toList)
        { id := "t1".toList, kind := "reverse".toList, data := "x".toList }
        { dead_letter := [], results := [] }).2.results "t1".toList =
      { task_id := "t1".toList, status := "error".toList, result := none,
        error := some " boom".toList })
  ∧ " boom".toList ≠ "boom".toList :=
  ⟨rfl, rfl, by decide⟩

/-- Claim C4 amended: for every error message m, the worker stores the
failure for the task id as "error: " (colon and space) followed by m - both
in the worker `handle` except-path and in `WorkerService.process_next_task` -
and `get_task_result` on that id returns status "error" with its error field
equal to a single space followed by m: the six-character marker "error:" is
stripped, so the original message is recovered with one extra leading space
rather than exactly. -/
theorem C4_error_roundtrip_amended (m id data kind : List Char) (s : WStore)
    (rest : List Job) (results : Store) (dl : List (List Char)) (tt : TaskType)
    (hk : knownKind kind = true) :
    (hget (handle (some m) { id := id, kind := kind, data := data } s).2.results id =
      some ("error: ".toList ++ m))
  ∧ (get_task_result
        (handle (some m) { id := id, kind := kind, data := data } s).2.results id =
      { task_id := id, status := "error".toList, result := none, error := some (' ' :: m) })
  ∧ (process_next_task (some m)
        ({ id := id, kind := tt.value, data := data } :: rest) results dl =
      (PNTOutcome.returnedTrue, rest, hset results id ("error: ".toList ++ m), dl)) := by
  have h1 : hget (handle (some m) { id := id, kind := kind, data := data } s).2.results id =
      some ("error: ".toList ++ m) := by
    simp [handle, hk, hget_hset_self]
  refine ⟨h1, ?_, ?_⟩
  · unfold get_task_result
    rw [h1]
    rfl
  · cases tt <;> rfl

/-- Witness for C4's amended claim at the message "oops" on an uppercase
task. -/
theorem C4_error_roundtrip_amended_witness :
    (hget (handle (some "oops".toList)
        { id := "t9".toList, kind := "uppercase".toList, data := "y".toList }
        { dead_letter := [], results := [] }).2.results "t9".toList =
      some "error: oops".toList)
  ∧ (get_task_result (handle (some "oops".toList)
        { id := "t9".toList, kind := "uppercase".toList, data := "y".toList }
        { dead_letter := [], results := [] }).2.results "t9".toList =
      { task_id := "t9".toList, status := "error".toList, result := none,
        error := some " oops".toList })
  ∧ (process_next_task (some "oops".toList)
        [{ id := "t9".toList, kind := TaskType.uppercase.value, data := "y".toList }] [] [] =
      (PNTOutcome.returnedTrue, [], hset [] "t9".toList "error: oops".toList, [])) :=
  C4_error_roundtrip_amended "oops".toList "t9".toList "y".toList "uppercase".toList
    { dead_letter := [], results := [] } [] [] [] TaskType.uppercase rfl

/-- Counterexample for C5: polling the id of the job dead-lettered for the
unknown kind "frobnicate" reports status "done" carrying the marker string
"dead_letter" as its result value - not a distinct dead-lettered outcome. -/
theorem C5_counterexample_dead_letter_polls_done :
    get_task_result (handle none
        { id := "t1".toList, kind := "frobnicate".toList, data := "x".toList }
        { dead_letter := [], results := [] }).2.results "t1".toList =
      { task_id := "t1".toList, status := "done".toList,
        result := some "dead_letter".toList, error := none } := rfl

/-- Claim C5 amended: for every task id, `get_task_result` returns exactly
one of the three statuses pending, error, done - there is no fourth
dead-lettered status - and the HTTP-facing reader `get_result` returns only
pending or done; polling the id of a task dead-lettered for an unknown kind
reports status "done" with the marker string "dead_letter" as its result
value, not a distinct outcome. -/
theorem C5_outcomes_amended :
    (∀ (store : Store) (id : List Char),
        (get_task_result store id).status = "pending".toList
      ∨ (get_task_result store id).status = "error".toList
      ∨ (get_task_result store id).status = "done".toList)
  ∧ (∀ (store : Store) (id : List Char),
        (get_result store id).1 = "pending".toList ∨ (get_result store id).1 = "done".toList)
  ∧ (∀ (job : Job) (s : WStore), knownKind job.kind = false →
        get_task_result (handle none job s).2.results job.id =
          { task_id := job.id, status := "done".toList,
            result := some "dead_letter".toList, error := none }) := by
  refine ⟨?_, ?_, ?_⟩
  · intro store id
    rcases hh : hget store id with _ | r
    · rw [get_task_result_none store id hh]
      exact Or.inl rfl
    · rw [get_task_result_some store id r hh]
      by_cases hs : startswith "error:".toList r = true
      · rw [if_pos hs]
        exact Or.inr (Or.inl rfl)
      · rw [if_neg hs]
        exact Or.inr (Or.inr rfl)
  · intro store id
    unfold get_result
    rcases hh : hget store id with _ | r
    · exact Or.inl rfl
    · exact Or.inr rfl
  · intro job s h
    have h1 : hget (handle none job s).2.results job.id = some "dead_letter".toList := by
      simp [handle, h, hget_hset_self]
    unfold get_task_result
    rw [h1]
    rfl

/-- Witness for C5's amended claim (its third conjunct carries a hypothesis)
at the unknown kind "mystery". -/
theorem C5_outcomes_amended_witness :
    get_task_result (handle none
        { id := "t2".toList, kind := "mystery".toList, data := "y".toList }
        { dead_letter := [], results := [] }).2.results "t2".toList =
      { task_id := "t2".toList, status := "done".toList,
        result := some "dead_letter".toList, error := none } :=
  C5_outcomes_amended.2.2
    { id := "t2".toList, kind := "mystery".toList, data := "y".toList }
    { dead_letter := [], results := [] } rfl

/-- Counterexample for C6: with the single reverse job "t1" queued and the
transformation fault "boom" injected, one worker iteration writes the error
record and pops the job, but leaves the processed counter at 0 - it is not
incremented to 1 as the claim states, because `handle` re-raises after
writing the record and control jumps to the loop-level except clause,
skipping the increment. -/
theorem C6_counterexample_processed_counter :
    ((worker_iter (some "boom".toList)
        { queue := [{ id := "t1".toList, kind := "reverse".toList, data := "x".toList }],
          dead_letter := [], results := [], processed := 0 }).processed = 0)
  ∧ ¬ ((worker_iter (some "boom".toList)
        { queue := [{ id := "t1".toList, kind := "reverse".toList, data := "x".toList }],
          dead_letter := [], results := [], processed := 0 }).processed = 0 + 1)
  ∧ (hget (worker_iter (some "boom".toList)
        { queue := [{ id := "t1".toList, kind := "reverse".toList, data := "x".toList }],
          dead_letter := [], results := [], processed := 0 }).results "t1".toList =
      some "error: boom".toList) :=
  ⟨rfl, by decide, rfl⟩

/-- Claim C6 amended: when the transformation of the dequeued task raises,
the worker writes the error record "error: " ++ m for that task id, removes
the task from the queue, and continues the loop with the next iteration (the
loop-level except clause catches the re-raised exception, so the fault is
never fatal), but the processed counter is not incremented for the faulted
task - the increment after `handle` is skipped when `handle` re-raises. -/
theorem C6_fault_containment_amended (m : List Char) (job : Job) (rest : List Job)
    (dl : List (List Char)) (res : Store) (p : Nat) (hk : knownKind job.kind = true) :
    (worker_iter (some m)
        { queue := job :: rest, dead_letter := dl, results := res, processed := p } =
      { queue := rest, dead_letter := dl,
        results := hset res job.id ("error: ".toList ++ m), processed := p })
  ∧ (∀ (F : Nat → Option (List Char)) (stops : Nat → Bool) (k fuel : Nat),
        stops k = false → F k = some m →
        worker_run F stops k (fuel + 1)
            { queue := job :: rest, dead_letter := dl, results := res, processed := p } =
          worker_run F stops (k + 1) fuel
            { queue := rest, dead_letter := dl,
              results := hset res job.id ("error: ".toList ++ m), processed := p }) := by
  have hiter : worker_iter (some m)
        { queue := job :: rest, dead_letter := dl, results := res, processed := p } =
      { queue := rest, dead_letter := dl,
        results := hset res job.id ("error: ".toList ++ m), processed := p } := by
    simp [worker_iter, handle, hk]
  refine ⟨hiter, ?_⟩
  intro F stops k fuel h1 h2
  simp [worker_run, h1, h2, hiter]

/-- Witness for C6's amended claim: the faulted uppercase job "t2". -/
theorem C6_fault_containment_amended_witness :
    (worker_iter (some "boom".toList)
        { queue := [{ id := "t2".toList, kind := "uppercase".toList, data := "y".toList }],
          dead_letter := [], results := [], processed := 0 } =
      { queue := [], dead_letter := [],
        results := hset [] "t2".toList "error: boom".toList, processed := 0 })
  ∧ (worker_run (fun _ => some "boom".toList) (fun _ => false) 0 1
        { queue := [{ id := "t2".toList, kind := "uppercase".toList, data := "y".toList }],
          dead_letter := [], results := [], processed := 0 } =
      worker_run (fun _ => some "boom".toList) (fun _ => false) 1 0
        { queue := [], dead_letter := [],
          results := hset [] "t2".toList "error: boom".toList, processed := 0 }) :=
  ⟨(C6_fault_containment_amended "boom".toList
      { id := "t2".toList, kind := "uppercase".toList, data := "y".toList }
      [] [] [] 0 rfl).1,
    (C6_fault_containment_amended "boom".toList
      { id := "t2".toList, kind := "uppercase".toList, data := "y".toList }
      [] [] [] 0 rfl).2 (fun _ => some "boom".toList) (fun _ => false) 0 0 rfl rfl⟩

/-- Claim C7: the worker observes the shutdown stop flag only at the idle
boundary - `worker_iter` (one loop body) takes no flag input at all and
`worker_run` consults `stops` only between iterations, mirroring the source
where `shutdown_flag["stop"]` is read only in the `while` condition.
Consequently, if the flag was observed false at iteration k (so the pop
happened), then whatever the flag does at every later boundary and whatever
fault the iteration suffers, the popped task has a terminal recorded outcome
in the result store already at the end of that very iteration, and that
record is still present in the state in which the loop exits: no dequeued
task is abandoned mid-processing by the signal itself. -/
theorem C7_graceful_shutdown (F : Nat → Option (List Char)) (stops : Nat → Bool)
    (k fuel : Nat) (job : Job) (rest : List Job) (dl : List (List Char))
    (res : Store) (p : Nat) (hpop : stops k = false) :
    ((hget (worker_iter (F k)
        { queue := job :: rest, dead_letter := dl, results := res, processed := p }).results
        job.id).isSome = true)
  ∧ ((hget (worker_run F stops k (fuel + 1)
        { queue := job :: rest, dead_letter := dl, results := res, processed := p }).results
        job.id).isSome = true) := by
  have hrec : (hget (worker_iter (F k)
      { queue := job :: rest, dead_letter := dl, results := res, processed := p }).results
      job.id).isSome = true := by
    simpa [worker_iter] using handle_records (F k) job { dead_letter := dl, results := res }
  refine ⟨hrec, ?_⟩
  simp only [worker_run, hpop]
  simpa using worker_run_preserves F stops fuel (k + 1)
    (worker_iter (F k) { queue := job :: rest, dead_letter := dl, results := res, processed := p })
    job.id hrec

/-- Witness for C7: the reverse task "t1" is popped at iteration 0 while the
stop flag turns on from iteration 1 onward; its record exists after the
iteration and in the loop's exit state. -/
theorem C7_graceful_shutdown_witness :
    ((hget (worker_iter none
        { queue := [{ id := "t1".toList, kind := "reverse".toList, data := "x".toList }],
          dead_letter := [], results := [], processed := 0 }).results "t1".toList).isSome = true)
  ∧ ((hget (worker_run (fun _ => none) (fun k => decide (0 < k)) 0 2
        { queue := [{ id := "t1".toList, kind := "reverse".toList, data := "x".toList }],
          dead_letter := [], results := [], processed := 0 }).results "t1".toList).isSome = true) :=
  C7_graceful_shutdown (fun _ => none) (fun k => decide (0 < k)) 0 1
    { id := "t1".toList, kind := "reverse".toList, data := "x".toList } [] [] [] 0 rfl

theorem ensure_redis_go_probes_le (probe : Nat → Bool) :
    ∀ (rem a : Nat), (ensure_redis_go probe a rem).probes ≤ rem := by
  intro rem
  induction rem with
  | zero => intro a; exact Nat.le_refl 0
  | succ n ih =>
      intro a
      unfold ensure_redis_go
      by_cases h : probe a = true
      · simp [h]
      · simp only [if_neg h]
        exact Nat.succ_le_succ (ih (a + 1))

theorem ensure_redis_go_ok_iff (probe : Nat → Bool) :
    ∀ (rem a : Nat), (ensure_redis_go probe a rem).ok = true ↔
      ∃ j, a ≤ j ∧ j < a + rem ∧ probe j = true := by
  intro rem
  induction rem with
  | zero =>
      intro a
      simp only [ensure_redis_go]
      constructor
      · intro h; cases h
      · rintro ⟨j, h1, h2, _⟩; omega
  | succ n ih =>
      intro a
      unfold ensure_redis_go
      by_cases h : probe a = true
      · simp only [if_pos h]
        exact ⟨fun _ => ⟨a, Nat.le_refl a, by omega, h⟩, fun _ => by simp⟩
      · simp only [if_neg h]
        rw [show (let t := ensure_redis_go probe (a + 1) n;
            ({ probes := t.probes + 1, waits := backoff a :: t.waits, ok := t.ok } :
              RetryTrace)).ok = (ensure_redis_go probe (a + 1) n).ok from rfl]
        rw [ih (a + 1)]
        constructor
        · rintro ⟨j, h1, h2, h3⟩
          exact ⟨j, by omega, by omega, h3⟩
        · rintro ⟨j, h1, h2, h3⟩
          have hne : j ≠ a := by
            intro he
            rw [he] at h3
            exact h h3
          exact ⟨j, by omega, by omega, h3⟩

theorem ensure_redis_go_waits (probe : Nat → Bool) :
    ∀ (rem a : Nat),
      (ensure_redis_go probe a rem).waits =
        (List.range' a (ensure_redis_go probe a rem).waits.length).map backoff := by
  intro rem
  induction rem with
  | zero => intro a; rfl
  | succ n ih =>
      intro a
      unfold ensure_redis_go
      by_cases h : probe a = true
      · simp [h]
      · simp only [if_neg h]
        show backoff a :: (ensure_redis_go probe (a + 1) n).waits =
          (List.range' a ((backoff a :: (ensure_redis_go probe (a + 1) n).waits).length)).map
            backoff
        rw [List.length_cons, List.range'_succ, List.map_cons]
        exact congrArg (List.cons (backoff a)) (ih (a + 1))

theorem ensure_redis_go_success (probe : Nat → Bool) :
    ∀ (rem a : Nat), (ensure_redis_go probe a rem).ok = true →
      (ensure_redis_go probe a rem).probes = (ensure_redis_go probe a rem).waits.length + 1
      ∧ probe (a + (ensure_redis_go probe a rem).waits.length) = true
      ∧ ∀ j, a ≤ j → j < a + (ensure_redis_go probe a rem).waits.length → probe j = false := by
  intro rem
  induction rem with
  | zero => intro a h; cases h
  | succ n ih =>
      intro a
      unfold ensure_redis_go
      by_cases h : probe a = true
      · intro _
        simp only [if_pos h]
        refine ⟨rfl, by simpa using h, ?_⟩
        intro j h1 h2
        simp only [List.length_nil, Nat.add_zero] at h2
        exact absurd h2 (by omega)
      · simp only [if_neg h]
        intro hok
        have hok' : (ensure_redis_go probe (a + 1) n).ok = true := hok
        obtain ⟨e1, e2, e3⟩ := ih (a + 1) hok'
        refine ⟨?_, ?_, ?_⟩
        · show (ensure_redis_go probe (a + 1) n).probes + 1 =
            (backoff a :: (ensure_redis_go probe (a + 1) n).waits).length + 1
          rw [List.length_cons, e1]
        · show probe (a + (backoff a :: (ensure_redis_go probe (a + 1) n).waits).length) = true
          rw [List.length_cons]
          have hx : a + ((ensure_redis_go probe (a + 1) n).waits.length + 1) =
              (a + 1) + (ensure_redis_go probe (a + 1) n).waits.length := by omega
          rw [hx]
          exact e2
        · show ∀ j, a ≤ j →
            j < a + (backoff a :: (ensure_redis_go probe (a + 1) n).waits).length →
            probe j = false
          rw [List.length_cons]
          intro j h1 h2
          by_cases hja : j = a
          · rw [hja]
            exact (Bool.not_eq_true (probe a)) ▸ h
          · exact e3 j (by omega) (by omega)

theorem ensure_redis_go_failure (probe : Nat → Bool) :
    ∀ (rem a : Nat), (ensure_redis_go probe a rem).ok = false →
      (ensure_redis_go probe a rem).probes = rem
      ∧ ∀ j, a ≤ j → j < a + rem → probe j = false := by
  intro rem
  induction rem with
  | zero =>
      intro a _
      exact ⟨rfl, fun j h1 h2 => absurd h2 (by omega)⟩
  | succ n ih =>
      intro a
      unfold ensure_redis_go
      by_cases h : probe a = true
      · simp only [if_pos h]
        intro hok
        cases hok
      · simp only [if_neg h]
        intro hfail
        have hfail' : (ensure_redis_go probe (a + 1) n).ok = false := hfail
        obtain ⟨f1, f2⟩ := ih (a + 1) hfail'
        refine ⟨?_, ?_⟩
        · show (ensure_redis_go probe (a + 1) n).probes + 1 = n + 1
          rw [f1]
        · intro j h1 h2
          by_cases hja : j = a
          · rw [hja]
            exact (Bool.not_eq_true (probe a)) ▸ h
          · exact f2 j (by omega) (by omega)

/-- Claim C8: `ensure_redis` probes the backing store at most `max_attempts`
times (20 at the call site's default); it returns normally exactly when some
probe within the budget succeeds, and then on the first successful probe
(every earlier attempt failed, and the probe count is one more than the
number of waits slept); the n-th recorded wait - slept after the n-th failed
attempt - is exactly `backoff n = min(0.5 * n, 5)` time units; and when every
attempt fails it makes exactly `max_attempts` probes and raises
`RuntimeError`, modelled as `ok = false`. -/
theorem C8_ensure_redis_retry (probe : Nat → Bool) (m : Nat) :
    ((ensure_redis probe m).probes ≤ m)
  ∧ ((ensure_redis probe m).ok = true ↔ ∃ j, 1 ≤ j ∧ j ≤ m ∧ probe j = true)
  ∧ ((ensure_redis probe m).waits =
      (List.range' 1 (ensure_redis probe m).waits.length).map backoff)
  ∧ ((ensure_redis probe m).ok = true →
        (ensure_redis probe m).probes = (ensure_redis probe m).waits.length + 1
      ∧ probe (ensure_redis probe m).probes = true
      ∧ ∀ j, 1 ≤ j → j < (ensure_redis probe m).probes → probe j = false)
  ∧ ((ensure_redis probe m).ok = false →
        (ensure_redis probe m).probes = m
      ∧ ∀ j, 1 ≤ j → j ≤ m → probe j = false) := by
  unfold ensure_redis
  refine ⟨ensure_redis_go_probes_le probe m 1, ?_, ensure_redis_go_waits probe m 1, ?_, ?_⟩
  · rw [ensure_redis_go_ok_iff probe m 1]
    constructor
    · rintro ⟨j, h1, h2, h3⟩
      exact ⟨j, h1, by omega, h3⟩
    · rintro ⟨j, h1, h2, h3⟩
      exact ⟨j, h1, by omega, h3⟩
  · intro hok
    obtain ⟨e1, e2, e3⟩ := ensure_redis_go_success probe m 1 hok
    refine ⟨e1, ?_, ?_⟩
    · rw [e1, Nat.add_comm ((ensure_redis_go probe 1 m).waits.length) 1]
      exact e2
    · intro j hj1 hj2
      rw [e1] at hj2
      exact e3 j hj1 (by omega)
  · intro hfail
    obtain ⟨f1, f2⟩ := ensure_redis_go_failure probe m 1 hfail
    exact ⟨f1, fun j h1 h2 => f2 j h1 (by omega)⟩

/-- Witness for C8: with a probe that first succeeds on attempt 3 the call
returns normally within the 20-attempt budget; with a probe that always
fails it makes exactly 20 probes. -/
theorem C8_ensure_redis_retry_witness :
    ((ensure_redis (fun j => decide (j = 3)) 20).probes ≤ 20)
  ∧ ((ensure_redis (fun j => decide (j = 3)) 20).ok = true)
  ∧ ((ensure_redis (fun _ => false) 20).probes = 20) :=
  ⟨(C8_ensure_redis_retry (fun j => decide (j = 3)) 20).1,
    (C8_ensure_redis_retry (fun j => decide (j = 3)) 20).2.1.mpr
      ⟨3, by decide, by decide, by decide⟩,
    ((C8_ensure_redis_retry (fun _ => false) 20).2.2.2.2 rfl).1⟩

/-- Claim C9: when the result store holds no record for a task id,
`get_task_result` returns the pending outcome, with no result and no error
fields, every time it is called (the reader is a pure function of the store,
so repeated polls of an absent id all return this same value). -/
theorem C9_absent_is_pending (store : Store) (id : List Char)
    (h : hget store id = none) :
    get_task_result store id =
      { task_id := id, status := "pending".toList, result := none, error := none } := by
  unfold get_task_result
  rw [h]

/-- Witness for C9: a never-written id polls as pending on the empty store. -/
theorem C9_absent_is_pending_witness :
    get_task_result [] "nope".toList =
      { task_id := "nope".toList, status := "pending".toList,
        result := none, error := none } :=
  C9_absent_is_pending [] "nope".toList rfl

/-- Claim C10: in `WorkerService.process_next_task` a dequeued message with
an unknown kind raises at the `TaskType` construction, before the `try` block
is entered: the call propagates the exception, no result entry and no
dead-letter entry is written, and the message is already off the queue. -/
theorem C10_unknown_kind_raises (fault : Option (List Char)) (job : Job)
    (rest : List Job) (results : Store) (dead_letter : List (List Char))
    (h : TaskType.ofValue job.kind = none) :
    process_next_task fault (job :: rest) results dead_letter =
      (PNTOutcome.raisedValueError job.kind, rest, results, dead_letter) := by
  simp [process_next_task, h]

/-- Witness for C10: a "frobnicate" message raises and leaves both stores
untouched, with the message consumed from the queue. -/
theorem C10_unknown_kind_raises_witness :
    process_next_task none
        [{ id := "t1".toList, kind := "frobnicate".toList, data := "x".toList }] [] [] =
      (PNTOutcome.raisedValueError "frobnicate".toList, [], [], []) :=
  C10_unknown_kind_raises none
    { id := "t1".toList, kind := "frobnicate".toList, data := "x".toList } [] [] [] rfl

end App
